import Mathlib

/-!
Verification of the pubmed_download repository (two variants:
`pubmed_downloader.py`, an HTML link scraper, and `pubmed_downloader_ftp.py`,
an FTP directory lister) against its natural-language specification.

The Python code is shallowly embedded: network traffic, HTML parsing and the
FTP server are oracles passed as explicit arguments; mutable instance state
(`self._links`, `self.all_urls`, ...) is threaded as explicit records; the
filesystem is an association list from filenames to byte lists; exceptions are
`Except` / `Option` values; `logging` calls become an explicit event list.
-/

namespace PubmedDL

open RegularExpression

/-- Bytes of a response body / of a file on disk (one `Nat` per byte). -/
abbrev Bytes := List Nat

/-- A parsed `<a href=...>` element as produced by
`BeautifulSoup(...).find_all("a", href=True)`; only the `href` attribute is
consumed by the code. -/
structure Link where
  href : String
deriving DecidableEq, Repr

/-- An HTTP response as returned by `requests.get`. -/
structure Response where
  status_code : Nat
  content : Bytes
deriving DecidableEq, Repr

/-- The root-page fetch of `find_urls`, as one oracle: the status code of
`requests.get(starting_url)` together with the anchor elements BeautifulSoup
extracts from its body, in document order. -/
structure RootResponse where
  status_code : Nat
  links : List Link
deriving DecidableEq, Repr

/-- A `logging.error/warning/info/debug` call. -/
inductive LogEvent where
  | error (msg : String)
  | warning (msg : String)
  | info (msg : String)
  | debug (msg : String)
deriving DecidableEq, Repr

/-- Mutable state of a `PubmedDownloader` instance (`pubmed_downloader.py`).
`links` is `self._links`. -/
structure PubmedDownloader where
  links : List Link
  all_urls : List String
  filtered_urls : List String
  failed_urls : List String
  start_url : String
deriving DecidableEq, Repr

/-- `PubmedDownloader.__init__`. -/
def PubmedDownloader.init : PubmedDownloader :=
  { links := [], all_urls := [], filtered_urls := [], failed_urls := [],
    start_url := "" }

/-- Python `re.match(compiled_pattern, s)` truthiness: the pattern matches
anchored at position 0 of `s`, without having to consume the whole string,
i.e. some prefix (`s.data.take n`) is fully matched. The compiled pattern is
modelled as a `RegularExpression Char`; `rmatch` is Mathlib's executable
full-string matcher. -/
def reMatchAt0 (p : RegularExpression Char) (s : String) : Bool :=
  (List.range (s.data.length + 1)).any fun n => p.rmatch (s.data.take n)

/-- `PubmedDownloader.find_urls(starting_url)`.  `uj` is `urllib.parse.urljoin`
(an external library function, taken as a parameter).  Sets `start_url`, fetches
the root (oracle `resp`); on a non-200 status it logs an error and returns
(returning `None` in Python — no exception is raised and `_links`/`all_urls`
are left untouched); otherwise it stores the parsed anchors and the hrefs
resolved against the start url. -/
def find_urls (uj : String → String → String) (d : PubmedDownloader)
    (starting_url : String) (resp : RootResponse) :
    PubmedDownloader × List LogEvent :=
  let d := { d with start_url := starting_url }
  if resp.status_code ≠ 200 then
    (d, [.error ""])
  else
    ({ d with
        links := resp.links,
        all_urls := resp.links.map fun l => uj starting_url l.href },
     [.info "Found urls"])

/-- `PubmedDownloader.filter_urls(reg_ex)`: keeps the anchors whose raw `href`
attribute text matches the compiled pattern at position 0, and stores the
matching hrefs resolved against `start_url` (`urljoin`), in discovery order. -/
def filter_urls (uj : String → String → String) (d : PubmedDownloader)
    (p : RegularExpression Char) : PubmedDownloader × List LogEvent :=
  ({ d with
      filtered_urls :=
        (d.links.filter fun l => reMatchAt0 p l.href).map fun l =>
          uj d.start_url l.href },
   [.info "filtered urls"])

/-- Mutable state of an `FTPDownloader` instance (`pubmed_downloader_ftp.py`). -/
structure FTPDownloader where
  host : String
  cwd : Option String
  all_fileNames : List String
  filtered_fileNames : List String
deriving DecidableEq, Repr

/-- `FTPDownloader.__init__(host)`. -/
def FTPDownloader.init (host : String) : FTPDownloader :=
  { host := host, cwd := none, all_fileNames := [], filtered_fileNames := [] }

/-- The FTP server as seen by one session: whether anonymous `login()` and
`cwd()` succeed, and the directory listing `nlst()` reports (in
server-reported order). -/
structure FtpServer where
  loginOk : Bool
  cwdOk : Bool
  listing : List String
deriving DecidableEq, Repr

/-- An `ftplib` exception escaping a session. -/
inductive FtpError where
  | loginFailure
  | cwdFailure
  | transferFailure
deriving DecidableEq, Repr

/-- FTP session events, in order of occurrence inside the `with FTP(...)`
block; `close` is emitted when the `with` block exits. -/
inductive FtpEvent where
  | connect
  | login
  | cwdTo (dir : String)
  | nlst
  | close
deriving DecidableEq, Repr

/-- Python `sorted` on a list of strings: a stable sort by the lexicographic
order on strings. -/
def pySorted (l : List String) : List String :=
  l.insertionSort (· ≤ ·)

/-- `FTPDownloader.find_files(starting_dir)`: sets `cwd`, then inside a
`with FTP(host)` block logs in, changes directory and stores the sorted
`nlst()` listing; the session closes when the block exits, before the method
returns.  A login or navigation failure raises out of the method
(`Except.error`). -/
def find_files (srv : FtpServer) (d : FTPDownloader) (starting_dir : String) :
    Except FtpError (FTPDownloader × List FtpEvent) :=
  let d := { d with cwd := some starting_dir }
  if ¬ srv.loginOk then .error .loginFailure
  else if ¬ srv.cwdOk then .error .cwdFailure
  else .ok ({ d with all_fileNames := pySorted srv.listing },
            [.connect, .login, .cwdTo starting_dir, .nlst, .close])

/-- `FTPDownloader.filter_files(reg_ex)`: keeps the bare filenames of the
listing that match the compiled pattern at position 0, preserving order. -/
def filter_files (d : FTPDownloader) (p : RegularExpression Char) :
    FTPDownloader × List LogEvent :=
  ({ d with
      filtered_fileNames := d.all_fileNames.filter fun n => reMatchAt0 p n },
   [.info "filtered files"])

/-! ## Downloading, HTML variant (`pubmed_downloader.py`) -/

/-- The network as seen by repeated `requests.get(url, timeout=2)` calls for
one item: the result of the k-th attempt (1-based); `none` means the call
raised (timeout, connection error, ...). -/
abbrev AttemptOracle := Nat → Option Response

/-- Upper end of the random sleep window chosen by tenacity's
`wait_random_exponential(min=3, max=120)` after the n-th failed attempt
(default multiplier 1, exponent base 2): the exponentially growing value
`2 ^ (n - 1)` clamped between `min = 3` and `max = 120`; the actual sleep is
drawn uniformly from `[0, waitHigh n]`. -/
def waitHigh (n : Nat) : ℚ := max 3 (min ((2 : ℚ) ^ (n - 1)) 120)

/-- The retry loop of `@retry(wait=wait_random_exponential(min=3, max=120),
stop=stop_after_attempt(6))`: attempt number `n`, `remaining` further attempts
allowed, `delays` the sleeps performed so far.  `rand n` is the uniform draw in
`[0, 1]` scaling `waitHigh n` for the sleep after attempt `n` fails.  Returns
the first response together with the attempt number that produced it, or
raises `RetryError` (`Except.error`) after the final failed attempt, without a
further sleep. -/
def backoffGo (attempt : AttemptOracle) (rand : Nat → ℚ) :
    Nat → Nat → List ℚ → Except (List ℚ) (Response × Nat × List ℚ)
  | n, remaining, delays =>
    match attempt n with
    | some r => .ok (r, n, delays)
    | none =>
      match remaining with
      | 0 => .error delays
      | rem + 1 =>
          backoffGo attempt rand (n + 1) rem (delays ++ [rand n * waitHigh n])

/-- `requestGet_with_backoff(url=url, timeout=2)`: attempts 1 through 6. -/
def requestGet_with_backoff (attempt : AttemptOracle) (rand : Nat → ℚ) :
    Except (List ℚ) (Response × Nat × List ℚ) :=
  backoffGo attempt rand 1 5 []

/-- The destination directory: filenames with their current byte contents. -/
abbrev FileSystem := List (String × Bytes)

/-- `open(path, "wb")` followed by writing `c`: truncates/replaces an existing
file of that name, creates it otherwise. -/
def fsWrite (fs : FileSystem) (name : String) (c : Bytes) : FileSystem :=
  if fs.any fun e => e.1 == name then
    fs.map fun e => if e.1 == name then (name, c) else e
  else fs ++ [(name, c)]

/-- Content of a file of the destination directory, `none` when absent. -/
def fsRead (fs : FileSystem) (name : String) : Option Bytes :=
  (fs.find? fun e => e.1 == name).map Prod.snd

/-- `url.split("/")[-1]`: the final path segment of the identifier. -/
def pyBasename (url : String) : String :=
  (url.splitOn "/").getLastD ""

/-- What one `download_file` call did to the run: `succeeded` = body written
to disk, `failed` = url appended to `failed_urls`. -/
inductive Outcome where
  | succeeded
  | failed
deriving DecidableEq, Repr

/-- Result of `PubmedDownloader.download_file(url, path)`. -/
structure DfResult where
  d : PubmedDownloader
  fs : FileSystem
  outcome : Outcome
  attemptsUsed : Nat
  delays : List ℚ

/-- `PubmedDownloader.download_file(url, path)`: calls
`requestGet_with_backoff`; when that raises (no response on all six attempts)
it appends the url to `self.failed_urls` and returns; otherwise — whatever the
response's status code — it writes the full, already buffered response body to
`path/<url.split("/")[-1]>` and returns.  The destination file is only touched
on the success path, after the transfer has completed. -/
def download_file (attempt : AttemptOracle) (rand : Nat → ℚ)
    (d : PubmedDownloader) (fs : FileSystem) (url : String) : DfResult :=
  match requestGet_with_backoff attempt rand with
  | .error delays =>
      { d := { d with failed_urls := d.failed_urls ++ [url] }, fs := fs,
        outcome := .failed, attemptsUsed := 6, delays := delays }
  | .ok (r, n, delays) =>
      { d := d, fs := fsWrite fs (pyBasename url) r.content,
        outcome := .succeeded, attemptsUsed := n, delays := delays }

/-- The per-item executions of `download_file` over a list of submitted urls.
The thread pool interleaves them; since each item only appends to
`failed_urls` or writes its own file, the aggregate state is modelled by the
sequential composition, and one `Outcome` is collected per submitted url. -/
def downloadLoop (attempt : String → AttemptOracle) (rand : String → Nat → ℚ) :
    List String → PubmedDownloader → FileSystem →
    PubmedDownloader × FileSystem × List Outcome
  | [], d, fs => (d, fs, [])
  | url :: rest, d, fs =>
    let r := download_file (attempt url) (rand url) d fs url
    let (d', fs', outs) := downloadLoop attempt rand rest r.d r.fs
    (d', fs', r.outcome :: outs)

/-- `PubmedDownloader.download_urls(path, threads, progressbar)`: when
`filtered_urls` is empty it logs a warning and returns `None` immediately —
no executor is created and no fetch is attempted; otherwise it submits
`download_file` for every filtered url and waits for all futures. -/
def download_urls (attempt : String → AttemptOracle) (rand : String → Nat → ℚ)
    (d : PubmedDownloader) (fs : FileSystem) :
    PubmedDownloader × FileSystem × List Outcome × List LogEvent :=
  if d.filtered_urls.isEmpty then
    (d, fs, [], [.warning "No URLs to download"])
  else
    let (d', fs', outs) := downloadLoop attempt rand d.filtered_urls d fs
    (d', fs', outs, [.info "Starting download", .info "Download finished"])

/-! ## Downloading, FTP variant (`pubmed_downloader_ftp.py`) -/

/-- One `RETR` transfer as seen by `retrbinary(cmd, file.write)`: the data
blocks the server delivers to the callback, and — when `interrupt = some i` —
the fact that the connection fails after `i` blocks have already been written
to the open destination file. -/
structure FtpTransfer where
  chunks : List Bytes
  interrupt : Option Nat
deriving DecidableEq, Repr

/-- Result of `FTPDownloader.download_file(filename)`; `raised` is the
`ftplib` exception escaping the call, if any. -/
structure FtpDfResult where
  fs : FileSystem
  raised : Option FtpError
  attemptsUsed : Nat
deriving DecidableEq, Repr

/-- `FTPDownloader.download_file(filename)`: one session (login, cwd), then
`open(download_dir/filename, "wb")` — which truncates any existing file of
that name — followed by `retrbinary` streaming each block straight to the open
file.  There is no retry: any failure raises after this single attempt, and an
interrupted transfer leaves the blocks written so far on disk. -/
def ftp_download_file (srv : FtpServer) (tr : FtpTransfer) (fs : FileSystem)
    (filename : String) : FtpDfResult :=
  if ¬ srv.loginOk then { fs := fs, raised := some .loginFailure, attemptsUsed := 1 }
  else if ¬ srv.cwdOk then { fs := fs, raised := some .cwdFailure, attemptsUsed := 1 }
  else
    match tr.interrupt with
    | none =>
        { fs := fsWrite fs filename tr.chunks.flatten, raised := none,
          attemptsUsed := 1 }
    | some i =>
        { fs := fsWrite fs filename (tr.chunks.take i).flatten,
          raised := some .transferFailure, attemptsUsed := 1 }

/-- The per-item executions of the FTP `download_file` over the submitted
filenames.  The `as_completed` loop in `download_files` never calls
`future.result()`, so an exception raised inside a worker is swallowed by its
future: a failed item leaves no record anywhere (the class has no failed
list); only successful items are observable, through their written files.
`recorded` collects one `Outcome.succeeded` per item that completed without
raising — and nothing for the others. -/
def ftpDownloadLoop (srv : FtpServer) (tr : String → FtpTransfer) :
    List String → FileSystem → FileSystem × List Outcome
  | [], fs => (fs, [])
  | name :: rest, fs =>
    let r := ftp_download_file srv (tr name) fs name
    let (fs', outs) := ftpDownloadLoop srv tr rest r.fs
    match r.raised with
    | none => (fs', .succeeded :: outs)
    | some _ => (fs', outs)

/-- `FTPDownloader.download_files(threads, progressbar)`: when
`filtered_fileNames` is empty it logs a warning and returns `None`
immediately; otherwise it submits `download_file` for every filtered name. -/
def ftp_download_files (srv : FtpServer) (tr : String → FtpTransfer)
    (d : FTPDownloader) (fs : FileSystem) :
    FileSystem × List Outcome × List LogEvent :=
  if d.filtered_fileNames.isEmpty then
    (fs, [], [.warning "No files to download"])
  else
    let (fs', outs) := ftpDownloadLoop srv tr d.filtered_fileNames fs
    (fs', outs, [.info "Starting download", .info "Download finished"])

/-! ## The `main` flows -/

/-- Result of the HTML variant's `main` body after the directory check: final
downloader state, filesystem, outcomes and the concatenated log.  The model
has no raise path: `find_urls` returns normally on a non-success status, and
`main` calls `filter_urls` and `download_urls` unconditionally afterwards. -/
structure HtmlRun where
  d : PubmedDownloader
  fs : FileSystem
  outcomes : List Outcome
  logs : List LogEvent

/-- `main(path, url, reg_ex, threads)` of `pubmed_downloader.py`, from after
the destination-directory check: a fresh `PubmedDownloader`, then
`find_urls`, `filter_urls`, `download_urls` in sequence. -/
def html_main (uj : String → String → String) (resp : RootResponse)
    (attempt : String → AttemptOracle) (rand : String → Nat → ℚ)
    (url : String) (p : RegularExpression Char) (fs : FileSystem) : HtmlRun :=
  let (d1, log1) := find_urls uj PubmedDownloader.init url resp
  let (d2, log2) := filter_urls uj d1 p
  let (d3, fs', outs, log3) := download_urls attempt rand d2 fs
  { d := d3, fs := fs', outcomes := outs, logs := log1 ++ log2 ++ log3 }

/-- `main(...)` of `pubmed_downloader_ftp.py`, from after the
destination-directory check: a fresh `FTPDownloader`, then `find_files`,
`filter_files`, `download_files` in sequence.  An exception raised by
`find_files` propagates and aborts the run before filtering: the result is
`Except.error` and the log carries no filter event. -/
def ftp_main (srv : FtpServer) (tr : String → FtpTransfer) (host : String)
    (host_wd : String) (p : RegularExpression Char) (fs : FileSystem) :
    Except FtpError (FTPDownloader × FileSystem × List Outcome) × List LogEvent :=
  match find_files srv (FTPDownloader.init host) host_wd with
  | .error e => (.error e, [])
  | .ok (d1, _) =>
    let (d2, log2) := filter_files d1 p
    let (fs', outs, log3) := ftp_download_files srv tr d2 fs
    (.ok (d2, fs', outs), log2 ++ log3)

theorem reMatchAt0_iff_exists (p : RegularExpression Char) (s : String) :
    reMatchAt0 p s = true ↔
      ∃ t u : List Char, s.data = t ++ u ∧ t ∈ p.matches' := by
  simp only [reMatchAt0, List.any_eq_true, List.mem_range]
  constructor
  · rintro ⟨n, -, hm⟩
    exact ⟨s.data.take n, s.data.drop n, (List.take_append_drop n s.data).symm,
      (rmatch_iff_matches' p _).mp hm⟩
  · rintro ⟨t, u, hs, hm⟩
    refine ⟨t.length, ?_, ?_⟩
    · have : t.length ≤ s.data.length := by
        rw [hs, List.length_append]; omega
      omega
    · rw [hs, List.take_left]
      exact (rmatch_iff_matches' p t).mpr hm

/-- Helper: Python `sorted` of a string list is sorted lexicographically. -/
theorem pySorted_sorted (l : List String) : (pySorted l).Sorted (· ≤ ·) :=
  List.sorted_insertionSort (· ≤ ·) l

/-- Helper: Python `sorted` of a string list is a permutation of the input. -/
theorem pySorted_perm (l : List String) : (pySorted l).Perm l :=
  List.perm_insertionSort (· ≤ ·) l

/-- Helper: Python `sorted` gives the same string list on any reordering of
its input. -/
theorem pySorted_eq_of_perm {l₁ l₂ : List String} (h : l₁.Perm l₂) :
    pySorted l₁ = pySorted l₂ :=
  List.eq_of_perm_of_sorted ((pySorted_perm l₁).trans (h.trans (pySorted_perm l₂).symm))
    (pySorted_sorted l₁) (pySorted_sorted l₂)

/-- C2: for every discovered item, the pattern filter matches the regular
expression against the raw identifier string as discovered — the original
href attribute text in the HTML variant (the stored url being that href
resolved with urljoin), the bare filename in the FTP variant — and an item is
kept iff the pattern matches starting at position 0 of that string, without
needing to consume the whole string (some prefix of the string lies in the
pattern's language). -/
theorem C2_filter_matches_raw_identifier_anchored_at_0
    (uj : String → String → String) (d : PubmedDownloader)
    (df : FTPDownloader) (p : RegularExpression Char) :
    (filter_urls uj d p).1.filtered_urls
        = (d.links.filter fun l => reMatchAt0 p l.href).map
            (fun l => uj d.start_url l.href)
    ∧ (filter_files df p).1.filtered_fileNames
        = df.all_fileNames.filter (fun n => reMatchAt0 p n)
    ∧ ∀ s : String, reMatchAt0 p s = true ↔
        ∃ t u : List Char, s.data = t ++ u ∧ t ∈ p.matches' :=
  ⟨rfl, rfl, fun s => reMatchAt0_iff_exists p s⟩

/-- C3, counterexample: after discovering the single anchor `href="a.xml"` on
start url `"http://host/"` (urljoin resolving to `"http://host/a.xml"`) and
filtering with the pattern `a`, the filtered result contains
`"http://host/a.xml"` — an element that does NOT match the configured pattern
(the match was made against the raw href, not the stored resolved url), so
"every element of the filtered result matches the configured pattern" fails. -/
theorem C3_counterexample :
    "http://host/a.xml" ∈
      (filter_urls (fun b h => b ++ h)
        (find_urls (fun b h => b ++ h) PubmedDownloader.init "http://host/"
          { status_code := 200, links := [{ href := "a.xml" }] }).1
        (char 'a')).1.filtered_urls
    ∧ reMatchAt0 (char 'a') "http://host/a.xml" = false := by
  constructor
  · left
  · decide

/-- C3, amended: for every raw discovery list and every compilable pattern,
the filtered result is an ordered subsequence of the discovery list (so its
length is at most the raw list's length, discovery order is preserved, and
every element originates from an entry of the raw list); every element of the
filtered result originates from an entry whose RAW identifier (href text,
resp. bare filename) matches the configured pattern.  In the FTP variant the
filtered elements themselves match the pattern; in the HTML variant the
filtered element is the urljoin-resolved absolute URL, which need not itself
match (see the counterexample). -/
theorem C3_amended (uj : String → String → String) (resp : RootResponse)
    (url : String) (p : RegularExpression Char) (df : FTPDownloader)
    (h200 : resp.status_code = 200) :
    List.Sublist
        (filter_urls uj (find_urls uj PubmedDownloader.init url resp).1 p).1.filtered_urls
        (find_urls uj PubmedDownloader.init url resp).1.all_urls
    ∧ (filter_urls uj (find_urls uj PubmedDownloader.init url resp).1 p).1.filtered_urls.length
        ≤ (find_urls uj PubmedDownloader.init url resp).1.all_urls.length
    ∧ (∀ x ∈ (filter_urls uj (find_urls uj PubmedDownloader.init url resp).1 p).1.filtered_urls,
        ∃ l ∈ resp.links, reMatchAt0 p l.href = true ∧ x = uj url l.href)
    ∧ List.Sublist (filter_files df p).1.filtered_fileNames df.all_fileNames
    ∧ (∀ x ∈ (filter_files df p).1.filtered_fileNames, reMatchAt0 p x = true) := by
  have hfind : (find_urls uj PubmedDownloader.init url resp).1
      = { links := resp.links,
          all_urls := resp.links.map fun l => uj url l.href,
          filtered_urls := [], failed_urls := [], start_url := url } := by
    simp [find_urls, PubmedDownloader.init, h200]
  have hsub : List.Sublist
      ((resp.links.filter fun l => reMatchAt0 p l.href).map fun l => uj url l.href)
      (resp.links.map fun l => uj url l.href) :=
    (List.filter_sublist resp.links).map _
  refine ⟨?_, ?_, ?_, ?_, ?_⟩
  · rw [hfind]; exact hsub
  · rw [hfind]; exact hsub.length_le
  · rw [hfind]
    intro x hx
    simp only [filter_urls, List.mem_map, List.mem_filter] at hx
    obtain ⟨l, ⟨hl, hm⟩, rfl⟩ := hx
    exact ⟨l, hl, hm, rfl⟩
  · exact List.filter_sublist df.all_fileNames
  · intro x hx
    simp only [filter_files, List.mem_filter] at hx
    exact hx.2

theorem C3_amended_witness :
    ({ status_code := 200, links := [{ href := "b.xml" }, { href := "c.txt" }] }
        : RootResponse).status_code = 200
    ∧ (List.Sublist
        (filter_urls (fun b h => b ++ h)
          (find_urls (fun b h => b ++ h) PubmedDownloader.init "http://h/"
            { status_code := 200, links := [{ href := "b.xml" }, { href := "c.txt" }] }).1
          (char 'b')).1.filtered_urls
        (find_urls (fun b h => b ++ h) PubmedDownloader.init "http://h/"
          { status_code := 200, links := [{ href := "b.xml" }, { href := "c.txt" }] }).1.all_urls
      ∧ (filter_urls (fun b h => b ++ h)
          (find_urls (fun b h => b ++ h) PubmedDownloader.init "http://h/"
            { status_code := 200, links := [{ href := "b.xml" }, { href := "c.txt" }] }).1
          (char 'b')).1.filtered_urls.length
          ≤ (find_urls (fun b h => b ++ h) PubmedDownloader.init "http://h/"
              { status_code := 200, links := [{ href := "b.xml" }, { href := "c.txt" }] }).1.all_urls.length
      ∧ (∀ x ∈ (filter_urls (fun b h => b ++ h)
            (find_urls (fun b h => b ++ h) PubmedDownloader.init "http://h/"
              { status_code := 200, links := [{ href := "b.xml" }, { href := "c.txt" }] }).1
            (char 'b')).1.filtered_urls,
          ∃ l ∈ ({ status_code := 200, links := [{ href := "b.xml" }, { href := "c.txt" }] }
              : RootResponse).links,
            reMatchAt0 (char 'b') l.href = true ∧ x = (fun b h => b ++ h) "http://h/" l.href)
      ∧ List.Sublist (filter_files (FTPDownloader.init "h") (char 'b')).1.filtered_fileNames
          (FTPDownloader.init "h").all_fileNames
      ∧ (∀ x ∈ (filter_files (FTPDownloader.init "h") (char 'b')).1.filtered_fileNames,
          reMatchAt0 (char 'b') x = true)) :=
  ⟨rfl, C3_amended (fun b h => b ++ h)
    { status_code := 200, links := [{ href := "b.xml" }, { href := "c.txt" }] }
    "http://h/" (char 'b') (FTPDownloader.init "h") rfl⟩

/-- C7: when the filtered set is empty, `download_urls` / `download_files`
returns immediately (returning Python's `None`, with downloader state and
filesystem untouched), reports zero attempted downloads (no outcome is
produced, so no network call is made beyond discovery) and logs the no-op
warning; no error is raised (the operation is total). -/
theorem C7_empty_filtered_set_noop (attempt : String → AttemptOracle)
    (rand : String → Nat → ℚ) (d : PubmedDownloader) (fs : FileSystem)
    (srv : FtpServer) (tr : String → FtpTransfer) (df : FTPDownloader)
    (fs₂ : FileSystem) (h : d.filtered_urls = [])
    (h' : df.filtered_fileNames = []) :
    download_urls attempt rand d fs
        = (d, fs, [], [.warning "No URLs to download"])
    ∧ ftp_download_files srv tr df fs₂
        = (fs₂, [], [.warning "No files to download"]) := by
  constructor
  · simp [download_urls, h]
  · simp [ftp_download_files, h']

theorem C7_empty_filtered_set_noop_witness :
    PubmedDownloader.init.filtered_urls = []
    ∧ (FTPDownloader.init "h").filtered_fileNames = []
    ∧ (download_urls (fun _ _ => none) (fun _ _ => 0) PubmedDownloader.init []
          = (PubmedDownloader.init, [], [], [.warning "No URLs to download"])
        ∧ ftp_download_files { loginOk := true, cwdOk := true, listing := [] }
            (fun _ => { chunks := [], interrupt := none }) (FTPDownloader.init "h") []
          = ([], [], [.warning "No files to download"])) :=
  ⟨rfl, rfl,
    C7_empty_filtered_set_noop (fun _ _ => none) (fun _ _ => 0)
      PubmedDownloader.init [] { loginOk := true, cwdOk := true, listing := [] }
      (fun _ => { chunks := [], interrupt := none }) (FTPDownloader.init "h") []
      rfl rfl⟩

/-- C8: for every FTP directory listing, `find_files` stores the entries
sorted lexicographically — a deterministic order, the same for any
server-reported order of the same entries — and the session's last event is
`close`, i.e. the session is closed before the method returns. -/
theorem C8_ftp_listing_sorted_session_closed (srv : FtpServer)
    (d : FTPDownloader) (wd : String) (hl : srv.loginOk = true)
    (hc : srv.cwdOk = true) :
    ∃ d' events, find_files srv d wd = .ok (d', events)
      ∧ d'.all_fileNames.Sorted (· ≤ ·)
      ∧ d'.all_fileNames.Perm srv.listing
      ∧ (∀ srv₂ : FtpServer, srv₂.listing.Perm srv.listing →
          pySorted srv₂.listing = d'.all_fileNames)
      ∧ events.getLast? = some .close := by
  refine ⟨{ d with cwd := some wd, all_fileNames := pySorted srv.listing },
    [.connect, .login, .cwdTo wd, .nlst, .close], ?_, ?_, ?_, ?_, rfl⟩
  · simp [find_files, hl, hc]
  · exact pySorted_sorted srv.listing
  · exact pySorted_perm srv.listing
  · exact fun srv₂ h => pySorted_eq_of_perm h

theorem C8_ftp_listing_sorted_session_closed_witness :
    ({ loginOk := true, cwdOk := true, listing := ["b.xml", "a.xml"] }
        : FtpServer).loginOk = true
    ∧ ({ loginOk := true, cwdOk := true, listing := ["b.xml", "a.xml"] }
        : FtpServer).cwdOk = true
    ∧ ∃ d' events,
        find_files { loginOk := true, cwdOk := true, listing := ["b.xml", "a.xml"] }
            (FTPDownloader.init "h") "/pubmed/baseline/" = .ok (d', events)
        ∧ d'.all_fileNames.Sorted (· ≤ ·)
        ∧ d'.all_fileNames.Perm
            ({ loginOk := true, cwdOk := true, listing := ["b.xml", "a.xml"] }
              : FtpServer).listing
        ∧ (∀ srv₂ : FtpServer,
            srv₂.listing.Perm
              ({ loginOk := true, cwdOk := true, listing := ["b.xml", "a.xml"] }
                : FtpServer).listing →
            pySorted srv₂.listing = d'.all_fileNames)
        ∧ events.getLast? = some FtpEvent.close :=
  ⟨rfl, rfl,
    C8_ftp_listing_sorted_session_closed
      { loginOk := true, cwdOk := true, listing := ["b.xml", "a.xml"] }
      (FTPDownloader.init "h") "/pubmed/baseline/" rfl rfl⟩

/-- Helper: when the first successful attempt is number `k`, within the
allowed window, the retry loop returns that attempt's response together with
`k`. -/
theorem backoffGo_first_success (attempt : AttemptOracle) (rand : Nat → ℚ)
    (r : Response) :
    ∀ (rem n k : Nat) (delays : List ℚ), n ≤ k → k ≤ n + rem →
      attempt k = some r → (∀ j, n ≤ j → j < k → attempt j = none) →
      ∃ ds, backoffGo attempt rand n rem delays = .ok (r, k, ds) := by
  intro rem
  induction rem with
  | zero =>
    intro n k delays hnk hkn hk _
    have : k = n := by omega
    subst this
    exact ⟨delays, by simp [backoffGo, hk]⟩
  | succ rem ih =>
    intro n k delays hnk hkn hk hbefore
    by_cases hkeq : k = n
    · subst hkeq
      exact ⟨delays, by simp [backoffGo, hk]⟩
    · have hn : attempt n = none := hbefore n le_rfl (by omega)
      obtain ⟨ds, hds⟩ := ih (n + 1) k (delays ++ [rand n * waitHigh n])
        (by omega) (by omega) hk (fun j h1 h2 => hbefore j (by omega) h2)
      exact ⟨ds, by rw [backoffGo, hn]; exact hds⟩

/-- Helper: when every attempt in the allowed window fails, the retry loop
raises, after sleeping once per failed attempt except the last. -/
theorem backoffGo_all_fail (attempt : AttemptOracle) (rand : Nat → ℚ) :
    ∀ (rem n : Nat) (delays : List ℚ),
      (∀ j, n ≤ j → j ≤ n + rem → attempt j = none) →
      backoffGo attempt rand n rem delays
        = .error (delays ++
            ((List.range rem).map fun i => rand (n + i) * waitHigh (n + i))) := by
  intro rem
  induction rem with
  | zero =>
    intro n delays hfail
    have hn : attempt n = none := hfail n le_rfl (by omega)
    simp [backoffGo, hn]
  | succ rem ih =>
    intro n delays hfail
    have hn : attempt n = none := hfail n le_rfl (by omega)
    rw [backoffGo, hn]
    show backoffGo attempt rand (n + 1) rem (delays ++ [rand n * waitHigh n]) = _
    rw [ih (n + 1) (delays ++ [rand n * waitHigh n])
      (fun j h1 h2 => hfail j (by omega) (by omega))]
    congr 1
    rw [List.append_assoc]
    congr 1
    rw [List.range_succ_eq_map, List.map_cons, List.map_map]
    simp only [Nat.add_zero, List.singleton_append]
    congr 1
    apply List.map_congr_left
    intro i _
    simp only [Function.comp_apply]
    congr 2 <;> omega

/-- C10: in the HTML variant, a per-item HTTP response that arrives within the
retry budget (first success at attempt `k ≤ 6`) — whatever its status code —
makes `download_file` treat the fetch as successful: the response body is
written to the destination under the url's basename, and the downloader state
(in particular `failed_urls`) is unchanged. -/
theorem C10_response_of_any_status_is_written (attempt : AttemptOracle)
    (rand : Nat → ℚ) (d : PubmedDownloader) (fs : FileSystem) (url : String)
    (k : Nat) (r : Response) (hk1 : 1 ≤ k) (hk6 : k ≤ 6)
    (hs : attempt k = some r) (hbefore : ∀ j, 1 ≤ j → j < k → attempt j = none) :
    (download_file attempt rand d fs url).outcome = .succeeded
    ∧ (download_file attempt rand d fs url).fs
        = fsWrite fs (pyBasename url) r.content
    ∧ (download_file attempt rand d fs url).d = d
    ∧ (download_file attempt rand d fs url).attemptsUsed = k := by
  obtain ⟨ds, hds⟩ := backoffGo_first_success attempt rand r 5 1 k []
    hk1 (by omega) hs hbefore
  have hreq : requestGet_with_backoff attempt rand = .ok (r, k, ds) := hds
  refine ⟨?_, ?_, ?_, ?_⟩ <;> simp [download_file, hreq]

theorem C10_response_of_any_status_is_written_witness :
    (1 : Nat) ≤ 1 ∧ (1 : Nat) ≤ 6
    ∧ (fun j => if j = 1 then some ({ status_code := 404, content := [7, 7] }
        : Response) else none) 1
        = some ({ status_code := 404, content := [7, 7] } : Response)
    ∧ ((download_file
          (fun j => if j = 1 then some ({ status_code := 404, content := [7, 7] }
            : Response) else none)
          (fun _ => 0) PubmedDownloader.init [] "http://host/x/f.xml").outcome
          = .succeeded
      ∧ (download_file
          (fun j => if j = 1 then some ({ status_code := 404, content := [7, 7] }
            : Response) else none)
          (fun _ => 0) PubmedDownloader.init [] "http://host/x/f.xml").fs
          = fsWrite [] (pyBasename "http://host/x/f.xml") [7, 7]
      ∧ (download_file
          (fun j => if j = 1 then some ({ status_code := 404, content := [7, 7] }
            : Response) else none)
          (fun _ => 0) PubmedDownloader.init [] "http://host/x/f.xml").d
          = PubmedDownloader.init
      ∧ (download_file
          (fun j => if j = 1 then some ({ status_code := 404, content := [7, 7] }
            : Response) else none)
          (fun _ => 0) PubmedDownloader.init [] "http://host/x/f.xml").attemptsUsed
          = 1) :=
  ⟨le_refl 1, by omega, rfl,
    C10_response_of_any_status_is_written
      (fun j => if j = 1 then some { status_code := 404, content := [7, 7] } else none)
      (fun _ => 0) PubmedDownloader.init [] "http://host/x/f.xml" 1
      { status_code := 404, content := [7, 7] } (le_refl 1) (by omega) rfl
      (fun j h1 h2 => absurd (Nat.lt_of_lt_of_le h2 h1) (Nat.lt_irrefl j))⟩

/-- Helper: the sleep window's upper end never exceeds 120 time-units. -/
theorem waitHigh_le (n : Nat) : waitHigh n ≤ 120 := by
  unfold waitHigh
  apply max_le
  · norm_num
  · exact min_le_right _ _

/-- Helper: the sleep window's upper end is nonnegative. -/
theorem waitHigh_nonneg (n : Nat) : 0 ≤ waitHigh n :=
  le_trans (by norm_num) (le_max_left 3 _)

/-- C4, counterexample: in the FTP variant, a transport-level failure on the
very first block of the transfer makes `download_file` raise out of the call
after a single attempt — there is no retry, no backoff, and no recorded
failure — contradicting "retries ... up to a fixed maximum of 6 total
attempts, and on exhausting all attempts it records a Failed outcome
(attemptsUsed=6) ... rather than throwing". -/
theorem C4_counterexample :
    (ftp_download_file { loginOk := true, cwdOk := true, listing := ["f.xml"] }
        { chunks := [[1, 2]], interrupt := some 0 } [] "f.xml").attemptsUsed = 1
    ∧ (ftp_download_file { loginOk := true, cwdOk := true, listing := ["f.xml"] }
        { chunks := [[1, 2]], interrupt := some 0 } [] "f.xml").raised
        = some .transferFailure := by
  constructor <;> rfl

/-- C4, amended: in the HTML variant, a transfer hitting transport-level
failures or timeouts is retried with jittered exponential backoff — each sleep
is a uniform draw `rand n` in `[0,1]` times `waitHigh n = max 3 (min 2^(n-1)
120)`, hence lies in `[0, 120]` — up to 6 total attempts (5 sleeps), and on
exhausting all attempts the url is recorded in `failed_urls` (attemptsUsed =
6) without raising and without touching the destination.  The FTP variant,
by contrast, performs exactly one attempt: a transport failure raises out of
`download_file` and records nothing. -/
theorem C4_amended (attempt : AttemptOracle) (rand : Nat → ℚ)
    (d : PubmedDownloader) (fs : FileSystem) (url : String)
    (srv : FtpServer) (tr : FtpTransfer) (fs₂ : FileSystem) (name : String)
    (i : Nat) (hfail : ∀ j, 1 ≤ j → j ≤ 6 → attempt j = none)
    (hrand : ∀ n, 0 ≤ rand n ∧ rand n ≤ 1)
    (hint : tr.interrupt = some i) :
    (download_file attempt rand d fs url).outcome = .failed
    ∧ (download_file attempt rand d fs url).attemptsUsed = 6
    ∧ (download_file attempt rand d fs url).d.failed_urls
        = d.failed_urls ++ [url]
    ∧ (download_file attempt rand d fs url).fs = fs
    ∧ (download_file attempt rand d fs url).delays.length = 5
    ∧ (∀ q ∈ (download_file attempt rand d fs url).delays, 0 ≤ q ∧ q ≤ 120)
    ∧ (ftp_download_file srv tr fs₂ name).attemptsUsed = 1
    ∧ (ftp_download_file srv tr fs₂ name).raised ≠ none := by
  have hreq : requestGet_with_backoff attempt rand
      = .error ((List.range 5).map fun j => rand (1 + j) * waitHigh (1 + j)) := by
    have := backoffGo_all_fail attempt rand 5 1 []
      (fun j h1 h2 => hfail j h1 (by omega))
    simpa [requestGet_with_backoff] using this
  refine ⟨?_, ?_, ?_, ?_, ?_, ?_, ?_, ?_⟩
  · simp [download_file, hreq]
  · simp [download_file, hreq]
  · simp [download_file, hreq]
  · simp [download_file, hreq]
  · simp [download_file, hreq]
  · intro q hq
    simp only [download_file, hreq, List.mem_map, List.mem_range] at hq
    obtain ⟨j, -, rfl⟩ := hq
    constructor
    · exact mul_nonneg (hrand (1 + j)).1 (waitHigh_nonneg (1 + j))
    · exact le_trans
        (mul_le_of_le_one_left (waitHigh_nonneg (1 + j)) (hrand (1 + j)).2)
        (waitHigh_le (1 + j))
  · unfold ftp_download_file
    by_cases h1 : srv.loginOk <;> by_cases h2 : srv.cwdOk <;> simp [h1, h2, hint]
  · unfold ftp_download_file
    by_cases h1 : srv.loginOk <;> by_cases h2 : srv.cwdOk <;> simp [h1, h2, hint]

theorem C4_amended_witness :
    (∀ j, 1 ≤ j → j ≤ 6 → (fun _ : Nat => (none : Option Response)) j = none)
    ∧ (∀ n : Nat, 0 ≤ (fun _ : Nat => (1 : ℚ) / 2) n
        ∧ (fun _ : Nat => (1 : ℚ) / 2) n ≤ 1)
    ∧ ({ chunks := [[5]], interrupt := some 0 } : FtpTransfer).interrupt = some 0
    ∧ ((download_file (fun _ => none) (fun _ => (1 : ℚ) / 2)
          PubmedDownloader.init [] "http://h/f").outcome = .failed
      ∧ (download_file (fun _ => none) (fun _ => (1 : ℚ) / 2)
          PubmedDownloader.init [] "http://h/f").attemptsUsed = 6
      ∧ (download_file (fun _ => none) (fun _ => (1 : ℚ) / 2)
          PubmedDownloader.init [] "http://h/f").d.failed_urls
          = PubmedDownloader.init.failed_urls ++ ["http://h/f"]
      ∧ (download_file (fun _ => none) (fun _ => (1 : ℚ) / 2)
          PubmedDownloader.init [] "http://h/f").fs = []
      ∧ (download_file (fun _ => none) (fun _ => (1 : ℚ) / 2)
          PubmedDownloader.init [] "http://h/f").delays.length = 5
      ∧ (∀ q ∈ (download_file (fun _ => none) (fun _ => (1 : ℚ) / 2)
            PubmedDownloader.init [] "http://h/f").delays, 0 ≤ q ∧ q ≤ 120)
      ∧ (ftp_download_file { loginOk := true, cwdOk := true, listing := [] }
          { chunks := [[5]], interrupt := some 0 } [] "f").attemptsUsed = 1
      ∧ (ftp_download_file { loginOk := true, cwdOk := true, listing := [] }
          { chunks := [[5]], interrupt := some 0 } [] "f").raised ≠ none) :=
  ⟨fun _ _ _ => rfl, fun _ => by norm_num, rfl,
    C4_amended (fun _ => none) (fun _ => (1 : ℚ) / 2) PubmedDownloader.init []
      "http://h/f" { loginOk := true, cwdOk := true, listing := [] }
      { chunks := [[5]], interrupt := some 0 } [] "f" 0
      (fun _ _ _ => rfl) (fun _ => by norm_num) rfl⟩

/-- Helper: reading back a just-written file yields the written content. -/
theorem fsRead_fsWrite_self (fs : FileSystem) (name : String) (c : Bytes) :
    fsRead (fsWrite fs name c) name = some c := by
  unfold fsWrite
  by_cases h : fs.any fun e => e.1 == name
  · simp only [h, if_true]
    induction fs with
    | nil => simp at h
    | cons e rest ih =>
      by_cases he : e.1 == name
      · simp [fsRead, List.find?, he]
      · have : rest.any fun e => e.1 == name := by
          simp only [List.any_cons, he, Bool.false_or] at h
          exact h
        simp only [List.map_cons, he, if_false]
        simpa [fsRead, List.find?, he] using ih this
  · simp only [h, if_false]
    induction fs with
    | nil => simp [fsRead, List.find?]
    | cons e rest ih =>
      have he : (e.1 == name) = false := by
        by_contra hx
        simp only [ne_eq, Bool.not_eq_false] at hx
        exact h (by simp [List.any_cons, hx])
      have : ¬ rest.any fun e => e.1 == name := by
        intro hx
        exact h (by simp [List.any_cons, hx])
      simpa [fsRead, List.find?, he] using ih this

/-- C5, counterexample: in the FTP variant, with a prior successful download
`f.xml ↦ [1,2,3,4]` on disk, a transfer of body `[9] ++ [8]` interrupted after
the first block leaves `f.xml ↦ [9]` visible under the expected filename — a
truncated file (neither the full body `[9,8]` nor the prior content
`[1,2,3,4]`), because the destination is opened (and truncated) before the
transfer rather than after it completes. -/
theorem C5_counterexample :
    fsRead (ftp_download_file { loginOk := true, cwdOk := true, listing := [] }
        { chunks := [[9], [8]], interrupt := some 1 }
        [("f.xml", [1, 2, 3, 4])] "f.xml").fs "f.xml" = some [9]
    ∧ ([9] : Bytes) ≠ [9, 8]
    ∧ ([9] : Bytes) ≠ [1, 2, 3, 4]
    ∧ (ftp_download_file { loginOk := true, cwdOk := true, listing := [] }
        { chunks := [[9], [8]], interrupt := some 1 }
        [("f.xml", [1, 2, 3, 4])] "f.xml").raised = some .transferFailure := by
  refine ⟨rfl, by decide, by decide, rfl⟩

/-- C5, amended: in the HTML variant the claim holds — the body is fully
buffered before the destination file is created, so a fetch that fails never
touches the filesystem and a successful fetch writes the complete body in one
step.  In the FTP variant it fails: the destination file is opened (truncated)
before the transfer starts and blocks are streamed into it, so a transfer
interrupted after `i` blocks leaves exactly those `i` blocks visible under the
expected filename, destroying any prior download of the same name. -/
theorem C5_amended (attempt : AttemptOracle) (rand : Nat → ℚ)
    (d : PubmedDownloader) (fs : FileSystem) (url : String)
    (srv : FtpServer) (tr : FtpTransfer) (fs₂ : FileSystem) (name : String)
    (i : Nat) (hl : srv.loginOk = true) (hc : srv.cwdOk = true)
    (hint : tr.interrupt = some i) :
    ((download_file attempt rand d fs url).outcome = .failed →
        (download_file attempt rand d fs url).fs = fs)
    ∧ ((download_file attempt rand d fs url).outcome = .succeeded →
        ∃ r k ds, requestGet_with_backoff attempt rand = .ok (r, k, ds)
          ∧ (download_file attempt rand d fs url).fs
              = fsWrite fs (pyBasename url) r.content)
    ∧ fsRead (ftp_download_file srv tr fs₂ name).fs name
        = some (tr.chunks.take i).flatten
    ∧ (ftp_download_file srv tr fs₂ name).raised = some .transferFailure := by
  refine ⟨?_, ?_, ?_, ?_⟩
  · intro h
    cases hreq : requestGet_with_backoff attempt rand with
    | error ds => simp [download_file, hreq]
    | ok v => simp [download_file, hreq] at h
  · intro h
    cases hreq : requestGet_with_backoff attempt rand with
    | error ds => simp [download_file, hreq] at h
    | ok v =>
      obtain ⟨r, k, ds⟩ := v
      exact ⟨r, k, ds, rfl, by simp [download_file, hreq]⟩
  · simp only [ftp_download_file, hl, hc, hint]
    simp [fsRead_fsWrite_self]
  · simp [ftp_download_file, hl, hc, hint]

theorem C5_amended_witness :
    ({ loginOk := true, cwdOk := true, listing := [] } : FtpServer).loginOk = true
    ∧ ({ loginOk := true, cwdOk := true, listing := [] } : FtpServer).cwdOk = true
    ∧ ({ chunks := [[3], [4]], interrupt := some 1 } : FtpTransfer).interrupt = some 1
    ∧ (((download_file (fun _ => none) (fun _ => 0)
            PubmedDownloader.init [("g", [5])] "http://h/g").outcome = .failed →
          (download_file (fun _ => none) (fun _ => 0)
            PubmedDownloader.init [("g", [5])] "http://h/g").fs = [("g", [5])])
      ∧ ((download_file (fun _ => none) (fun _ => 0)
            PubmedDownloader.init [("g", [5])] "http://h/g").outcome = .succeeded →
          ∃ r k ds, requestGet_with_backoff (fun _ => none) (fun _ => 0)
              = .ok (r, k, ds)
            ∧ (download_file (fun _ => none) (fun _ => 0)
                PubmedDownloader.init [("g", [5])] "http://h/g").fs
                = fsWrite [("g", [5])] (pyBasename "http://h/g") r.content)
      ∧ fsRead (ftp_download_file { loginOk := true, cwdOk := true, listing := [] }
            { chunks := [[3], [4]], interrupt := some 1 } [("g", [5])] "g").fs "g"
          = some (({ chunks := [[3], [4]], interrupt := some 1 }
              : FtpTransfer).chunks.take 1).flatten
      ∧ (ftp_download_file { loginOk := true, cwdOk := true, listing := [] }
            { chunks := [[3], [4]], interrupt := some 1 } [("g", [5])] "g").raised
          = some .transferFailure) :=
  ⟨rfl, rfl, rfl,
    C5_amended (fun _ => none) (fun _ => 0) PubmedDownloader.init [("g", [5])]
      "http://h/g" { loginOk := true, cwdOk := true, listing := [] }
      { chunks := [[3], [4]], interrupt := some 1 } [("g", [5])] "g" 1
      rfl rfl rfl⟩

/-- Whether one FTP `download_file` call raises, as determined by the session
and transfer oracles alone (the decision does not depend on the filesystem). -/
def ftpAttemptRaises (srv : FtpServer) (tr : FtpTransfer) : Bool :=
  !srv.loginOk || !srv.cwdOk || tr.interrupt.isSome

/-- Helper: the FTP `download_file` raises iff `ftpAttemptRaises` says so,
independently of the filesystem it runs against. -/
theorem ftp_raised_none_iff (srv : FtpServer) (tr : FtpTransfer)
    (fs : FileSystem) (name : String) :
    (ftp_download_file srv tr fs name).raised = none
      ↔ ftpAttemptRaises srv tr = false := by
  unfold ftp_download_file ftpAttemptRaises
  by_cases h1 : srv.loginOk <;> by_cases h2 : srv.cwdOk <;>
    cases h3 : tr.interrupt <;> simp [h1, h2, h3]

/-- Whether one HTML `download_file` call for an item ends in failure, as
determined by the per-item network oracle alone: all six GET attempts raise. -/
def htmlFails (attempt : AttemptOracle) (rand : Nat → ℚ) : Bool :=
  match requestGet_with_backoff attempt rand with
  | .error _ => true
  | .ok _ => false

/-- Helper: in the HTML variant every submitted url contributes exactly one
outcome — failure exactly when its six attempts raised — and `failed_urls`
grows by exactly the failing urls, in order. -/
theorem downloadLoop_exactly_one_outcome (attempt : String → AttemptOracle)
    (rand : String → Nat → ℚ) :
    ∀ (urls : List String) (d : PubmedDownloader) (fs : FileSystem),
      (downloadLoop attempt rand urls d fs).2.2
          = urls.map (fun u => if htmlFails (attempt u) (rand u)
              then Outcome.failed else Outcome.succeeded)
      ∧ (downloadLoop attempt rand urls d fs).1.failed_urls
          = d.failed_urls
            ++ urls.filter (fun u => htmlFails (attempt u) (rand u)) := by
  intro urls
  induction urls with
  | nil => intro d fs; simp [downloadLoop]
  | cons url rest ih =>
    intro d fs
    cases hreq : requestGet_with_backoff (attempt url) (rand url) with
    | error ds =>
      have hf : htmlFails (attempt url) (rand url) = true := by
        simp [htmlFails, hreq]
      have h1 := (ih { d with failed_urls := d.failed_urls ++ [url] } fs).1
      have h2 := (ih { d with failed_urls := d.failed_urls ++ [url] } fs).2
      simp only [downloadLoop, download_file, hreq] at h1 h2 ⊢
      refine ⟨?_, ?_⟩
      · simp [h1, hf]
      · rw [h2]
        simp [hf, List.filter_cons, List.append_assoc]
    | ok v =>
      obtain ⟨r, k, ds⟩ := v
      have hf : htmlFails (attempt url) (rand url) = false := by
        simp [htmlFails, hreq]
      have h1 := (ih d (fsWrite fs (pyBasename url) r.content)).1
      have h2 := (ih d (fsWrite fs (pyBasename url) r.content)).2
      simp only [downloadLoop, download_file, hreq] at h1 h2 ⊢
      refine ⟨?_, ?_⟩
      · simp [h1, hf]
      · rw [h2]
        simp [hf, List.filter_cons]

/-- Helper: in the FTP variant only the items whose single attempt did not
raise are recorded (through a completed write); failed items leave no record. -/
theorem ftpDownloadLoop_recorded_length (srv : FtpServer)
    (tr : String → FtpTransfer) :
    ∀ (names : List String) (fs : FileSystem),
      (ftpDownloadLoop srv tr names fs).2.length
        = (names.filter fun n => !ftpAttemptRaises srv (tr n)).length := by
  intro names
  induction names with
  | nil => intro fs; simp [ftpDownloadLoop]
  | cons name rest ih =>
    intro fs
    unfold ftpDownloadLoop
    cases hr : (ftp_download_file srv (tr name) fs name).raised with
    | none =>
      have hfa : ftpAttemptRaises srv (tr name) = false :=
        (ftp_raised_none_iff srv (tr name) fs name).mp hr
      simp [hr, ih, List.filter_cons, hfa]
    | some e =>
      have hfa : ftpAttemptRaises srv (tr name) = true := by
        by_contra hx
        simp only [Bool.not_eq_true] at hx
        rw [← ftp_raised_none_iff srv (tr name) fs name] at hx
        rw [hr] at hx
        exact Option.noConfusion hx
      simp [hr, ih, List.filter_cons, hfa]

/-- C6, counterexample: in the FTP variant, one submitted item whose single
transfer attempt fails yields NO recorded outcome — the worker's exception is
swallowed by its future (`as_completed` never calls `result()`) and the class
keeps no failed list — so the outcome count (0) differs from the filtered-set
size (1). -/
theorem C6_counterexample :
    (ftp_download_files { loginOk := true, cwdOk := true, listing := ["f"] }
        (fun _ => { chunks := [[1]], interrupt := some 0 })
        { host := "h", cwd := some "/d", all_fileNames := ["f"],
          filtered_fileNames := ["f"] } []).2.1.length = 0
    ∧ ({ host := "h", cwd := some "/d", all_fileNames := ["f"],
          filtered_fileNames := ["f"] } : FTPDownloader).filtered_fileNames.length
        = 1 := by
  exact ⟨rfl, rfl⟩

/-- C6, amended: in the HTML variant the claim holds — every submitted url
yields exactly one outcome (failure exactly when all its attempts raised,
success otherwise), so the outcome count equals the submitted count, and
`failed_urls` grows by exactly the failing urls.  In the FTP variant only
items whose single attempt did not raise are recorded; a failed item is
dropped with no outcome, so the recorded count is the number of non-raising
items, which can be less than the filtered-set size. -/
theorem C6_amended (attempt : String → AttemptOracle) (rand : String → Nat → ℚ)
    (urls : List String) (d : PubmedDownloader) (fs : FileSystem)
    (srv : FtpServer) (tr : String → FtpTransfer) (names : List String)
    (fs₂ : FileSystem) :
    (downloadLoop attempt rand urls d fs).2.2.length = urls.length
    ∧ (downloadLoop attempt rand urls d fs).2.2
        = urls.map (fun u => if htmlFails (attempt u) (rand u)
            then Outcome.failed else Outcome.succeeded)
    ∧ (downloadLoop attempt rand urls d fs).1.failed_urls
        = d.failed_urls ++ urls.filter (fun u => htmlFails (attempt u) (rand u))
    ∧ (ftpDownloadLoop srv tr names fs₂).2.length
        = (names.filter fun n => !ftpAttemptRaises srv (tr n)).length :=
  ⟨by rw [(downloadLoop_exactly_one_outcome attempt rand urls d fs).1]
      exact List.length_map urls _,
   (downloadLoop_exactly_one_outcome attempt rand urls d fs).1,
   (downloadLoop_exactly_one_outcome attempt rand urls d fs).2,
   ftpDownloadLoop_recorded_length srv tr names fs₂⟩

/-- C1, counterexample: in the HTML variant, a root fetch returning status 404
does NOT abort the run with an error: `find_urls` logs an error and returns
`None`, after which `main` still calls `filter_urls` (its "filtered urls" log
event appears after the discovery error event) — so filtering IS attempted
after the failed discovery, contradicting "fails with a DiscoveryError that is
fatal to the run: no filtering or download is attempted afterwards". -/
theorem C1_counterexample :
    (html_main (fun b h => b ++ h)
        { status_code := 404, links := [{ href := "a.xml" }] }
        (fun _ _ => none) (fun _ _ => 0) "http://host/" (char 'a') []).logs
      = [.error "", .info "filtered urls", .warning "No URLs to download"]
    ∧ LogEvent.info "filtered urls" ∈
        (html_main (fun b h => b ++ h)
          { status_code := 404, links := [{ href := "a.xml" }] }
          (fun _ _ => none) (fun _ _ => 0) "http://host/" (char 'a') []).logs := by
  refine ⟨rfl, ?_⟩
  right
  left

/-- C1, amended: in the HTML variant, a root fetch with a non-success status
makes `find_urls` log an error and return `None` without raising; the run then
proceeds to `filter_urls` (which, on the fresh instance's empty link list,
yields an empty filtered set) and `download_urls` returns as a no-op, so no
download is attempted but filtering IS.  In the FTP variant the claim's
behavior holds: a login failure or a navigation (`cwd`) failure raises the
corresponding `ftplib` error out of `find_files`, the run aborts with that
error before filtering, and no filter event is logged. -/
theorem C1_amended (uj : String → String → String) (resp : RootResponse)
    (url : String) (p : RegularExpression Char)
    (attempt : String → AttemptOracle) (rand : String → Nat → ℚ)
    (fs : FileSystem) (srv : FtpServer) (tr : String → FtpTransfer)
    (host wd : String) (fs₂ : FileSystem)
    (hbad : resp.status_code ≠ 200)
    (hfail : srv.loginOk = false ∨ srv.cwdOk = false) :
    (html_main uj resp attempt rand url p fs).logs
        = [.error "", .info "filtered urls", .warning "No URLs to download"]
    ∧ (html_main uj resp attempt rand url p fs).outcomes = []
    ∧ (html_main uj resp attempt rand url p fs).fs = fs
    ∧ (srv.loginOk = false →
        (ftp_main srv tr host wd p fs₂).1 = .error .loginFailure)
    ∧ (srv.loginOk = true →
        (ftp_main srv tr host wd p fs₂).1 = .error .cwdFailure)
    ∧ (ftp_main srv tr host wd p fs₂).2 = [] := by
  have hhtml : (find_urls uj PubmedDownloader.init url resp)
      = ({ links := [], all_urls := [], filtered_urls := [], failed_urls := [],
            start_url := url }, [.error ""]) := by
    unfold find_urls PubmedDownloader.init
    simp [hbad]
  have hfind : ∃ e : FtpError,
      find_files srv (FTPDownloader.init host) wd = .error e
      ∧ (srv.loginOk = false → e = .loginFailure)
      ∧ (srv.loginOk = true → e = .cwdFailure) := by
    cases hl : srv.loginOk with
    | false =>
      exact ⟨.loginFailure, by simp [find_files, hl], fun _ => rfl,
        fun h => absurd h (by simp [hl])⟩
    | true =>
      have hc : srv.cwdOk = false := hfail.resolve_left (by simp [hl])
      exact ⟨.cwdFailure, by simp [find_files, hl, hc],
        fun h => absurd h (by simp [hl]), fun _ => rfl⟩
  obtain ⟨e, hfind, he1, he2⟩ := hfind
  refine ⟨?_, ?_, ?_, ?_, ?_, ?_⟩
  · unfold html_main
    rw [hhtml]
    simp [filter_urls, download_urls]
  · unfold html_main
    rw [hhtml]
    simp [filter_urls, download_urls]
  · unfold html_main
    rw [hhtml]
    simp [filter_urls, download_urls]
  · intro hl
    simp [ftp_main, hfind, he1 hl]
  · intro hl
    simp [ftp_main, hfind, he2 hl]
  · simp [ftp_main, hfind]

theorem C1_amended_witness :
    ({ status_code := 500, links := [] } : RootResponse).status_code ≠ 200
    ∧ (({ loginOk := false, cwdOk := true, listing := ["x"] } : FtpServer).loginOk
          = false
        ∨ ({ loginOk := false, cwdOk := true, listing := ["x"] } : FtpServer).cwdOk
          = false)
    ∧ (({ loginOk := true, cwdOk := false, listing := ["x"] } : FtpServer).loginOk
          = false
        ∨ ({ loginOk := true, cwdOk := false, listing := ["x"] } : FtpServer).cwdOk
          = false)
    ∧ ((html_main (fun b h => b ++ h) { status_code := 500, links := [] }
          (fun _ _ => none) (fun _ _ => 0) "http://h/" (char 'x') []).logs
        = [.error "", .info "filtered urls", .warning "No URLs to download"]
      ∧ (html_main (fun b h => b ++ h) { status_code := 500, links := [] }
          (fun _ _ => none) (fun _ _ => 0) "http://h/" (char 'x') []).outcomes = []
      ∧ (html_main (fun b h => b ++ h) { status_code := 500, links := [] }
          (fun _ _ => none) (fun _ _ => 0) "http://h/" (char 'x') []).fs = []
      ∧ (({ loginOk := false, cwdOk := true, listing := ["x"] } : FtpServer).loginOk
            = false →
          (ftp_main { loginOk := false, cwdOk := true, listing := ["x"] }
            (fun _ => { chunks := [], interrupt := none }) "h" "/d" (char 'x') []).1
            = .error .loginFailure)
      ∧ (({ loginOk := false, cwdOk := true, listing := ["x"] } : FtpServer).loginOk
            = true →
          (ftp_main { loginOk := false, cwdOk := true, listing := ["x"] }
            (fun _ => { chunks := [], interrupt := none }) "h" "/d" (char 'x') []).1
            = .error .cwdFailure)
      ∧ (ftp_main { loginOk := false, cwdOk := true, listing := ["x"] }
          (fun _ => { chunks := [], interrupt := none }) "h" "/d" (char 'x') []).2
          = [])
    ∧ (ftp_main { loginOk := true, cwdOk := false, listing := ["x"] }
          (fun _ => { chunks := [], interrupt := none }) "h" "/d" (char 'x') []).1
        = .error .cwdFailure
    ∧ (ftp_main { loginOk := true, cwdOk := false, listing := ["x"] }
          (fun _ => { chunks := [], interrupt := none }) "h" "/d" (char 'x') []).2
        = [] :=
  ⟨by decide, Or.inl rfl, Or.inr rfl,
    C1_amended (fun b h => b ++ h) { status_code := 500, links := [] } "http://h/"
      (char 'x') (fun _ _ => none) (fun _ _ => 0) []
      { loginOk := false, cwdOk := true, listing := ["x"] }
      (fun _ => { chunks := [], interrupt := none }) "h" "/d" [] (by decide)
      (Or.inl rfl),
    (C1_amended (fun b h => b ++ h) { status_code := 500, links := [] } "http://h/"
      (char 'x') (fun _ _ => none) (fun _ _ => 0) []
      { loginOk := true, cwdOk := false, listing := ["x"] }
      (fun _ => { chunks := [], interrupt := none }) "h" "/d" [] (by decide)
      (Or.inr rfl)).2.2.2.2.1 rfl,
    (C1_amended (fun b h => b ++ h) { status_code := 500, links := [] } "http://h/"
      (char 'x') (fun _ _ => none) (fun _ _ => 0) []
      { loginOk := true, cwdOk := false, listing := ["x"] }
      (fun _ => { chunks := [], interrupt := none }) "h" "/d" [] (by decide)
      (Or.inr rfl)).2.2.2.2.2⟩

end PubmedDL
